import Mathlib

/-!
Verification of the href-template parsing and STAC metadata assembly logic of
the stactools glad-glclu2020 package (src/stactools/glad_glclu2020).

The package's template matching delegates to the third-party `parse` library.
Here templates are embedded as sequences of segments (literal text, a bare
named placeholder, or a width-bounded decimal placeholder such as the
`year:4d` fields of the year sub-formats).  The matcher below models the
library's behaviour on this fragment, as pinned down by the package's own
test-suite: matching is anchored at both ends of the string, a bare
placeholder matches a nonempty run of arbitrary characters preferring the
shortest match (the library compiles it to a non-greedy regex group), and a
decimal placeholder of width `w` matches between one and `w` digits
preferring the longest match (the library bounds the digit count above by
the declared width, which is why the package's tests expect `"20000"` to
fail against `year:4d`).  The library's case-insensitive literal mode and
its alternate hex/octal/binary integer forms are not exercised by this
package and are not modelled.
-/

deriving instance DecidableEq for Except

namespace GladGlclu2020

/-- Segment of an href template: literal text, a bare named placeholder
(written `\x7bname\x7d` in the source), or a decimal placeholder with a
width bound (written `\x7bname:4d\x7d`). -/
inductive Seg where
  | lit : String → Seg
  | field : String → Seg
  | num : String → Nat → Seg
deriving DecidableEq, Repr

/-- A template is a sequence of segments. -/
abbrev Template := List Seg

/-- Named captures produced by a successful match, in template order. -/
abbrev Caps := List (String × String)

/-- Drop the given prefix from a character list, or fail if it is not a
prefix. -/
def dropPrefixChars : List Char → List Char → Option (List Char)
  | [], cs => some cs
  | _ :: _, [] => none
  | p :: ps, c :: cs => if p = c then dropPrefixChars ps cs else none

/-- Match a literal segment: strip it from the front and continue. -/
def litMatch (p : List Char) (k : List Char → Option Caps) (cs : List Char) :
    Option Caps :=
  match dropPrefixChars p cs with
  | some rest => k rest
  | none => none

/-- Match a bare placeholder: a nonempty run of characters, shortest first
(the library's non-greedy wildcard), accumulating the consumed characters. -/
def wildMatch (n : String) (k : List Char → Option Caps) (acc : List Char) :
    List Char → Option Caps
  | [] => none
  | c :: cs =>
    match k cs with
    | some r => some ((n, String.mk (acc ++ [c])) :: r)
    | none => wildMatch n k (acc ++ [c]) cs

/-- Match a decimal placeholder: between one and `w` digits, longest first
(the library's greedy, width-bounded digit group).  The last argument is the
number of digits still allowed to be tried. -/
def numMatch (n : String) (k : List Char → Option Caps) (cs : List Char) :
    Nat → Option Caps
  | 0 => none
  | w + 1 =>
    let pre := cs.take (w + 1)
    if pre.length = w + 1 && pre.all Char.isDigit then
      match k (cs.drop (w + 1)) with
      | some r => some ((n, String.mk pre) :: r)
      | none => numMatch n k cs w
    else numMatch n k cs w

/-- Matcher for a single segment, in continuation style. -/
def segMatcher : Seg → (List Char → Option Caps) → List Char → Option Caps
  | .lit s => litMatch s.toList
  | .field n => fun k cs => wildMatch n k [] cs
  | .num n w => fun k cs => numMatch n k cs w

/-- Anchored match of a whole template against a character list, returning
the named captures in template order (the library's `parse(format, string)`,
whose result's `named` mapping iterates in template order). -/
def matchSegs : Template → List Char → Option Caps
  | [] => fun cs => match cs with | [] => some [] | _ :: _ => none
  | s :: rest => segMatcher s (matchSegs rest)

/-- Names of the template's placeholders, in template order (the library
parser's `named_fields`). -/
def namedFields : Template → List String
  | [] => []
  | .lit _ :: rest => namedFields rest
  | .field n :: rest => n :: namedFields rest
  | .num n _ :: rest => n :: namedFields rest

/-- Render a segment back to the source notation of the `parse` library. -/
def renderSeg : Seg → String
  | .lit s => s
  | .field n => "\x7b" ++ n ++ "\x7d"
  | .num n w => "\x7b" ++ n ++ ":" ++ toString w ++ "d\x7d"

/-- Render a template back to its format-string notation. -/
def renderTemplate (t : Template) : String :=
  String.join (t.map renderSeg)

/-- Look up a named capture (Python mapping access `named[n]`). -/
def lookupStr (n : String) : Caps → Option String
  | [] => none
  | (k, v) :: rest => if k = n then some v else lookupStr n rest

/-- Value of a digit string (the `int(...)` conversion applied to a capture
of a decimal placeholder, which is always a nonempty run of digits). -/
def digitsToNat (s : String) : Nat :=
  s.toList.foldl (fun a c => 10 * a + (c.toNat - 48)) 0

/-! Domain model, translated from src/stactools/glad_glclu2020/metadata.py. -/

/-- Media types used by the package (pystac MediaType members). -/
inductive MediaType where
  | COG
  | GEOTIFF
  | PNG
deriving DecidableEq, Repr

/-- The two collection identifiers (enum CollectionIDs). -/
inductive CollectionIDs where
  | GLAD_GLCLU2020
  | GLAD_GLCLU2020_CHANGE
deriving DecidableEq, Repr

/-- String value of a collection identifier. -/
def CollectionIDs.value : CollectionIDs → String
  | .GLAD_GLCLU2020 => "glad-glclu2020"
  | .GLAD_GLCLU2020_CHANGE => "glad-glclu2020-change"

/-- A timezone-aware instant; every datetime constructed by the package
carries `tzinfo=timezone.utc`, so the timezone is left implicit and is
always UTC. -/
structure Datetime where
  year : Nat
  month : Nat
  day : Nat
  hour : Nat
  minute : Nat
  second : Nat
deriving DecidableEq, Repr

/-- Construct a UTC datetime (Python's `datetime(...)` constructor).  The
month, day and time fields passed by this package are literal constants and
always valid; the year comes from parsed input and is validated against
Python's `MINYEAR`/`MAXYEAR` range, outside which the constructor raises
`ValueError: year N is out of range`. -/
def mkUtcDatetime (year month day hour minute second : Nat) :
    Except String Datetime :=
  if 1 ≤ year ∧ year ≤ 9999 then
    Except.ok ⟨year, month, day, hour, minute, second⟩
  else
    Except.error ("year " ++ toString year ++ " is out of range")

/-- Temporal extent start of both collections (COLLECTION_START_DATETIME). -/
def COLLECTION_START_DATETIME : Datetime := ⟨2000, 1, 1, 0, 0, 0⟩

/-- Temporal extent end of both collections (COLLECTION_END_DATETIME). -/
def COLLECTION_END_DATETIME : Datetime := ⟨2020, 12, 31, 23, 59, 59⟩

/-- Default asset href template (DEFAULT_HREF_FORMAT). -/
def DEFAULT_HREF_FORMAT : Template :=
  [.lit "https://storage.googleapis.com/earthenginepartners-hansen/GLCLU2000-2020/",
   .field "version", .lit "/", .field "year", .lit "/", .field "loc", .lit ".tif"]

/-- Sub-format for an annual year field (YEAR_FORMAT = `\x7byear:4d\x7d`). -/
def YEAR_FORMAT : Template := [.num "year" 4]

/-- Sub-format for a change year field
(CHANGE_YEAR_FORMAT = `\x7bstart_year:4d\x7d-\x7bend_year:4d\x7dchange`). -/
def CHANGE_YEAR_FORMAT : Template :=
  [.num "start_year" 4, .lit "-", .num "end_year" 4, .lit "change"]

/-- Keyword list attached to both collections (COLLECTION_KEYWORDS). -/
def COLLECTION_KEYWORDS : List String :=
  ["land cover", "land use", "land use change", "vegetation", "surface water"]

/-- Datetime-valued entries of the mapping assembled by `parse_href`: always
a single `datetime`, plus a `start_datetime`/`end_datetime` pair for the
change sub-format only.  The source stores the range endpoints as their
ISO-8601 renderings (`datetime.isoformat()`); the instants themselves are
kept here. -/
structure DatetimeProperties where
  datetime : Datetime
  start_datetime : Option Datetime
  end_datetime : Option Datetime
deriving DecidableEq, Repr

/-- Integer value of a named capture of a year sub-format match.  The
sub-format templates are fixed, so the capture is always present; the
default only pads the lookup's type. -/
def capValNat (caps : Caps) (n : String) : Nat :=
  digitsToNat ((lookupStr n caps).getD "")

/-- Error message of the final `else` branch of `parse_href` (lines
328-334 of metadata.py), naming the offending year value and listing the
two accepted sub-formats. -/
def yearFormatErrorMessage (y : String) : String :=
  "The year parameter cannot be parsed into either the annual or change " ++
  "formats: " ++ y ++ "\n" ++
  "Make sure the year parameter matches either of these formats:\n" ++
  renderTemplate YEAR_FORMAT ++ ", " ++ renderTemplate CHANGE_YEAR_FORMAT

/-- Interpretation of the captured `year` field (the body of `parse_href`
at lines 285-334 of metadata.py): the change sub-format is tried first,
then the annual sub-format; the datetime properties of the change branch
are built in source order (start, end, datetime), so the first invalid
year surfaces as the error.  Since any `Result` is truthy in Python and
`parse` returns either a `Result` or `None`, the guarded
`return None` branches of the source are unreachable and have no
counterpart here. -/
def interpretYearField (y : String) :
    Except String (CollectionIDs × DatetimeProperties) :=
  match matchSegs CHANGE_YEAR_FORMAT y.toList with
  | some yp => do
    let sd ← mkUtcDatetime (capValNat yp "start_year") 1 1 0 0 0
    let ed ← mkUtcDatetime (capValNat yp "end_year") 12 31 23 59 59
    let dt ← mkUtcDatetime (capValNat yp "end_year") 1 1 0 0 0
    Except.ok (CollectionIDs.GLAD_GLCLU2020_CHANGE,
      { datetime := dt, start_datetime := some sd, end_datetime := some ed })
  | none =>
    match matchSegs YEAR_FORMAT y.toList with
    | some yp => do
      let dt ← mkUtcDatetime (capValNat yp "year") 1 1 0 0 0
      Except.ok (CollectionIDs.GLAD_GLCLU2020,
        { datetime := dt, start_datetime := none, end_datetime := none })
    | none => Except.error (yearFormatErrorMessage y)

/-- Result of a successful `parse_href`: the mapping holding the joined
id, the version capture, the routed collection id and the datetime
properties. -/
structure ParsedHref where
  id : String
  version : String
  collection : CollectionIDs
  props : DatetimeProperties
deriving DecidableEq, Repr

/-- Collection configuration (dataclass CollectionDefinition).  The
classification table is identified by its bundled file path; its rows are
loaded lazily by the source and their contents are not needed here. -/
structure CollectionDefinition where
  id : CollectionIDs
  title : String
  description : String
  classifications_file : String
  asset_title : String
  asset_description : String
  href_format : Template
deriving DecidableEq, Repr

/-- CollectionDefinition.parse_href (metadata.py lines 277-341).  A href
that does not match the template raises a ValueError (modelled as
`Except.error`); on a match, the year field is interpreted and the result
mapping assembled.  The source reads `parsed.named["year"]` before
interpretation and `parsed.named["version"]` after it, so a missing key
(Python KeyError, possible only for templates that bypassed validation)
surfaces in that order. -/
def CollectionDefinition.parse_href (d : CollectionDefinition) (href : String) :
    Except String ParsedHref :=
  match matchSegs d.href_format href.toList with
  | none =>
    Except.error ("could not parse the provided href (" ++ href ++
      ") using the provided href_format: " ++ renderTemplate d.href_format)
  | some caps =>
    match lookupStr "year" caps with
    | none => Except.error "KeyError: year"
    | some y => do
      let (cid, props) ← interpretYearField y
      match lookupStr "version" caps with
      | none => Except.error "KeyError: version"
      | some v =>
        Except.ok { id := String.intercalate "_" (caps.map Prod.snd),
                    version := v, collection := cid, props := props }

/-- STAC item fields populated by `CollectionDefinition.create_item`
(metadata.py lines 343-370): the id, collection and datetime popped from
the parsed mapping, the remaining parsed fields as properties, the single
data asset's media type, and the classification list attached to that
asset, identified by the table file of the definition that built the
item. -/
structure Item where
  id : String
  collection : CollectionIDs
  datetime : Datetime
  start_datetime : Option Datetime
  end_datetime : Option Datetime
  version : String
  asset_media_type : MediaType
  classifications_file : String
deriving DecidableEq, Repr

/-- CollectionDefinition.create_item (metadata.py lines 343-370).  The
media-type sniffing of `_get_media_type` opens the raster asset and is
modelled by the `sniff` oracle.  The `if not href_parsed` guard of the
source is unreachable (the parsed mapping is never empty) and has no
counterpart here. -/
def CollectionDefinition.create_item (d : CollectionDefinition)
    (sniff : String → Except String MediaType) (asset_href : String) :
    Except String Item := do
  let p ← d.parse_href asset_href
  let mt ← sniff asset_href
  Except.ok { id := p.id, collection := p.collection,
              datetime := p.props.datetime,
              start_datetime := p.props.start_datetime,
              end_datetime := p.props.end_datetime,
              version := p.version, asset_media_type := mt,
              classifications_file := d.classifications_file }

/-- STAC collection fields populated by `build_collection` that the
verified properties mention: the string id, title, license, keywords,
the global temporal extent, and the media type written into the
item-assets `data` asset definition. -/
structure Collection where
  id : String
  title : String
  license : String
  keywords : List String
  extent_start : Datetime
  extent_end : Datetime
  asset_media_type : MediaType
deriving DecidableEq, Repr

/-- Assembly of the collection object once the media type is known
(metadata.py lines 211-275). -/
def mkCollection (d : CollectionDefinition) (mt : MediaType) : Collection :=
  { id := d.id.value, title := d.title, license := "CC-BY-4.0",
    keywords := COLLECTION_KEYWORDS,
    extent_start := COLLECTION_START_DATETIME,
    extent_end := COLLECTION_END_DATETIME,
    asset_media_type := mt }

/-- CollectionDefinition.build_collection (metadata.py lines 196-275).
When neither a media type nor a sample asset href is supplied a ValueError
is raised; when a media type is supplied it is used directly; otherwise
the sample href is sniffed (`_get_media_type`, modelled by the `sniff`
oracle).  The source tests Python truthiness, so an empty-string sample
href would count as absent; the Option model identifies absent with
falsy. -/
def CollectionDefinition.build_collection (d : CollectionDefinition)
    (sniff : String → Except String MediaType)
    (media_type : Option MediaType) (sample_asset_href : Option String) :
    Except String Collection :=
  match media_type, sample_asset_href with
  | none, none =>
    Except.error ("either provide a media_type or sample_asset_href in " ++
      "order to determine the media type")
  | some m, _ => Except.ok (mkCollection d m)
  | none, some h => do
    let m ← sniff h
    Except.ok (mkCollection d m)

/-- Required placeholder names of a href template, in sorted order
(`required_params = \x7b"version", "year"\x7d` of validate_href_format). -/
def requiredParams : List String := ["version", "year"]

/-- validate_href_format (metadata.py lines 373-403).  The template is an
AST here, so the `Parser(href_format)` syntax check cannot fail; the
missing-parameter check is translated exactly: the required names are
already sorted and set difference preserves their order, so
`', '.join(sorted(missing))` is the intercalation of the filtered list. -/
def validate_href_format (href_format : Template) : Except String Template :=
  let missing :=
    requiredParams.filter (fun p => !(namedFields href_format).contains p)
  if missing.isEmpty then Except.ok href_format
  else
    Except.error ("Format string missing required parameters: " ++
      String.intercalate ", " missing ++ ". Required parameters are: " ++
      String.intercalate ", " requiredParams)

/-- Full description text shared by both collections is not needed by any
verified property; the titles and table files below are the ones the
registry constructor writes (metadata.py lines 416-444). -/
def COLLECTION_DESCRIPTION : String :=
  "The GLAD Global Land Cover and Land Use Change dataset quantifies " ++
  "changes in forest extent and height, cropland, built-up lands, " ++
  "surface water, and perennial snow and ice extent from the year 2000 " ++
  "to 2020 at 30-m spatial resolution."

/-- The annual collection definition built by CollectionRegistry
(metadata.py lines 417-429). -/
def annualDefinition (fmt : Template) : CollectionDefinition :=
  { id := .GLAD_GLCLU2020,
    title := "GLAD: Annual maps of land cover and land use",
    description := COLLECTION_DESCRIPTION,
    asset_title := "Annual maps of land cover and land use",
    asset_description :=
      "Continuous measures of bare ground and tree height inside and " ++
      "outside of wetlands, seasonal water percent, and binary labels of " ++
      "built-up, permanent snow/ice, and cropland.",
    classifications_file := "data/annual_classes.csv",
    href_format := fmt }

/-- The change collection definition built by CollectionRegistry
(metadata.py lines 430-443). -/
def changeDefinition (fmt : Template) : CollectionDefinition :=
  { id := .GLAD_GLCLU2020_CHANGE,
    title := "GLAD: Net change of land cover and land use between 2000 and 2020",
    description := COLLECTION_DESCRIPTION,
    asset_title := "Net change of land cover and land use between 2000 and 2020",
    asset_description :=
      "Land cover and land use states of 2020 with transitions " ++
      "relative to 2000 labeled.",
    classifications_file := "data/change_classes.csv",
    href_format := fmt }

/-- Registry of collection configurations (dataclass CollectionRegistry).
The configs mapping preserves insertion order: annual first, change
second. -/
structure CollectionRegistry where
  href_format : Template
  configs : List CollectionDefinition
deriving DecidableEq, Repr

/-- CollectionRegistry construction (`__post_init__`, metadata.py lines
413-444): the template is validated, then both definitions are built over
it. -/
def mkCollectionRegistry (href_format : Template) :
    Except String CollectionRegistry := do
  let fmt ← validate_href_format href_format
  Except.ok { href_format := fmt,
              configs := [annualDefinition fmt, changeDefinition fmt] }

namespace stac

/-- Trial loop of stac.create_item (stac.py lines 78-82): each config's
`parse_href` is called in registration order; a raised error propagates,
and a returned mapping is always truthy (it always holds the id, version
and collection keys), so the first config whose `parse_href` returns
builds the item and the remaining configs — and the final
no-matching-collection error — are unreachable unless the list is
empty. -/
def create_item_loop (sniff : String → Except String MediaType)
    (asset_href : String) : List CollectionDefinition → Except String Item
  | [] => Except.error ("No matching collection found for href: " ++ asset_href)
  | c :: _rest => do
    let _p ← c.parse_href asset_href
    c.create_item sniff asset_href

/-- stac.create_item (stac.py lines 60-82): builds a registry over the
given href format and routes the href through the trial loop. -/
def create_item (sniff : String → Except String MediaType)
    (asset_href : String) (href_format : Template) : Except String Item := do
  let registry ← mkCollectionRegistry href_format
  create_item_loop sniff asset_href registry.configs

end stac

/-! Substitution into templates, for the round-trip property: rendering a
template with one value per placeholder is the `str.format` call a caller
uses to produce hrefs, and the expected captures pair the placeholder
names with those values in template order. -/

/-- Substitute values into a template, consuming one value per placeholder
in template order. -/
def renderWith : Template → List String → List Char
  | [], _ => []
  | .lit s :: rest, vs => s.toList ++ renderWith rest vs
  | .field _ :: rest, v :: vs => v.toList ++ renderWith rest vs
  | .field _ :: _, [] => []
  | .num _ _ :: rest, v :: vs => v.toList ++ renderWith rest vs
  | .num _ _ :: _, [] => []

/-- The captures a round trip is expected to recover: placeholder names
paired with the substituted values, in template order. -/
def fieldCaps : Template → List String → Caps
  | [], _ => []
  | .lit _ :: rest, vs => fieldCaps rest vs
  | .field n :: rest, v :: vs => (n, v) :: fieldCaps rest vs
  | .field _ :: _, [] => []
  | .num n _ :: rest, v :: vs => (n, v) :: fieldCaps rest vs
  | .num _ _ :: _, [] => []

/-- Number of placeholders of a template. -/
def fieldCount : Template → Nat
  | [] => 0
  | .lit _ :: rest => fieldCount rest
  | .field _ :: rest => fieldCount rest + 1
  | .num _ _ :: rest => fieldCount rest + 1

/-- Characters occurring in the literal segments of a template. -/
def litChars : Template → List Char
  | [] => []
  | .lit s :: rest => s.toList ++ litChars rest
  | .field _ :: rest => litChars rest
  | .num _ _ :: rest => litChars rest

/-- Separated templates: only literal and bare placeholder segments, every
literal nonempty, and every placeholder followed by a literal segment or by
the end of the template (two adjacent placeholders make the decomposition
of a rendered href ambiguous). -/
def sepTemplate : Template → Bool
  | [] => true
  | .lit s :: rest => !s.toList.isEmpty && sepTemplate rest
  | [.field _] => true
  | .field _ :: .lit s :: rest => sepTemplate (.lit s :: rest)
  | _ => false

/-! Concrete fixtures mirroring the test-suite of the package
(tests/test_stac.py): a short href template with the three placeholders of
the default format, and hrefs for an annual and a change asset. -/

/-- Href template used by the tests of the package. -/
def testHrefFormat : Template :=
  [.lit "test/", .field "version", .lit "/", .field "year", .lit "/",
   .field "loc", .lit ".tif"]

/-- An annual asset href matching `testHrefFormat`. -/
def testAnnualHref : String := "test/v2/2000/10N_050W.tif"

/-- A change asset href matching `testHrefFormat`. -/
def testChangeHref : String := "test/v2/2000-2020change/10N_050W.tif"

/-- A media-type oracle that reports every asset as a COG. -/
def sniffCOG : String → Except String MediaType :=
  fun _ => Except.ok MediaType.COG

/-- A media-type oracle that reports every asset as a plain GeoTIFF. -/
def sniffGEOTIFF : String → Except String MediaType :=
  fun _ => Except.ok MediaType.GEOTIFF

/-- Round-trip counterexample template: two placeholders separated by a
slash. -/
def slashTemplate : Template := [.field "version", .lit "/", .field "year"]

/-! Helper lemmas. -/

theorem mk_toList (s : String) : String.mk s.toList = s := rfl

theorem except_bind_ok {α β ε : Type} (a : α) (f : α → Except ε β) :
    (Except.ok a >>= f) = f a := rfl

theorem except_bind_err {α β ε : Type} (e : ε) (f : α → Except ε β) :
    ((Except.error e : Except ε α) >>= f) = Except.error e := rfl

theorem mkUtcDatetime_ok {y m d h mi s : Nat} {dt : Datetime}
    (hk : mkUtcDatetime y m d h mi s = Except.ok dt) :
    dt = ⟨y, m, d, h, mi, s⟩ := by
  unfold mkUtcDatetime at hk
  split at hk
  · injection hk with hk
    exact hk.symm
  · cases hk

theorem dropPrefixChars_append (p r : List Char) :
    dropPrefixChars p (p ++ r) = some r := by
  induction p with
  | nil => rfl
  | cons c cs ih => simp [dropPrefixChars, ih]

theorem wildMatch_found (n : String) (k : List Char → Option Caps)
    (res : Caps) :
    ∀ (v : List Char), v ≠ [] →
    ∀ (r : List Char), (∀ j, 1 ≤ j → j < v.length → k (v.drop j ++ r) = none) →
    k r = some res →
    ∀ acc, wildMatch n k acc (v ++ r) =
      some ((n, String.mk (acc ++ v)) :: res) := by
  intro v
  induction v with
  | nil => intro h; exact absurd rfl h
  | cons c v ih =>
    intro _ r hfail hr acc
    cases v with
    | nil => simp [wildMatch, hr]
    | cons c' v' =>
      have h1 : k ((c' :: v') ++ r) = none := by
        have h := hfail 1 (le_refl 1) (by simp)
        simpa using h
      have ih' := ih (by simp) r
        (fun j hj1 hj2 => by
          have h := hfail (j + 1) (by omega) (by simp at hj2 ⊢; omega)
          simpa using h)
        hr (acc ++ [c])
      show wildMatch n k acc (c :: ((c' :: v') ++ r)) = _
      rw [wildMatch, h1, ih']
      simp

theorem matchSegs_nil_cons (c : Char) (cs : List Char) :
    matchSegs [] (c :: cs) = none := rfl

theorem matchSegs_cons (s : Seg) (rest : Template) :
    matchSegs (s :: rest) = segMatcher s (matchSegs rest) := rfl

theorem segMatcher_lit (s : String) (k : List Char → Option Caps)
    (cs : List Char) : segMatcher (.lit s) k cs = litMatch s.toList k cs := rfl

theorem segMatcher_field (n : String) (k : List Char → Option Caps)
    (cs : List Char) : segMatcher (.field n) k cs = wildMatch n k [] cs := rfl

theorem litMatch_append (p r : List Char) (k : List Char → Option Caps) :
    litMatch p k (p ++ r) = k r := by
  simp [litMatch, dropPrefixChars_append]

theorem renderWith_lit (s : String) (rest : Template) (vs : List String) :
    renderWith (.lit s :: rest) vs = s.toList ++ renderWith rest vs := rfl

theorem renderWith_field (n : String) (rest : Template) (v : String)
    (vs : List String) :
    renderWith (.field n :: rest) (v :: vs) = v.toList ++ renderWith rest vs := rfl

theorem fieldCaps_lit (s : String) (rest : Template) (vs : List String) :
    fieldCaps (.lit s :: rest) vs = fieldCaps rest vs := rfl

theorem fieldCaps_field (n : String) (rest : Template) (v : String)
    (vs : List String) :
    fieldCaps (.field n :: rest) (v :: vs) = (n, v) :: fieldCaps rest vs := rfl

/-- C6 (amended): substituting values into a template and parsing the
rendered href against the same template recovers exactly the substituted
values, provided the template alternates nonempty literals with bare
placeholders (no two adjacent placeholders) and every substituted value is
nonempty and shares no character with the literals of the template.  The
unrestricted claim is refuted by `C6_counterexample`: a value containing a
delimiter character is split at the wrong place. -/
theorem C6_theorem :
    ∀ (t : Template) (vals : List String),
    sepTemplate t = true →
    vals.length = fieldCount t →
    (∀ v ∈ vals, v.toList ≠ [] ∧ ∀ c ∈ v.toList, c ∉ litChars t) →
    matchSegs t (renderWith t vals) = some (fieldCaps t vals) := by
  intro t
  induction t with
  | nil =>
    intro vals _ hlen _
    cases vals with
    | nil => rfl
    | cons v vs => simp [fieldCount] at hlen
  | cons s rest ih =>
    intro vals hsep hlen hmem
    cases s with
    | lit s =>
      have hsep' : sepTemplate rest = true := by
        simp [sepTemplate] at hsep
        exact hsep.2
      rw [matchSegs_cons, renderWith_lit, segMatcher_lit, litMatch_append,
        fieldCaps_lit]
      refine ih vals hsep' (by simpa [fieldCount] using hlen) ?_
      intro v hv
      refine ⟨(hmem v hv).1, fun c hc => ?_⟩
      have hlc := (hmem v hv).2 c hc
      simp only [litChars, List.mem_append] at hlc
      intro hmem2
      exact hlc (Or.inr hmem2)
    | field n =>
      cases vals with
      | nil => simp [fieldCount] at hlen
      | cons v vs =>
        have hv0 := hmem v (List.mem_cons_self v vs)
        rw [matchSegs_cons, renderWith_field, segMatcher_field, fieldCaps_field]
        cases rest with
        | nil =>
          cases vs with
          | cons v2 vs2 => simp [fieldCount] at hlen
          | nil =>
            have hfin := wildMatch_found n (matchSegs []) [] v.toList hv0.1
              (renderWith ([] : Template) ([] : List String))
              (fun j hj1 hj2 => by
                have hne : v.toList.drop j ≠ [] := by
                  intro hd
                  have hle := List.drop_eq_nil_iff.mp hd
                  omega
                cases hd : v.toList.drop j with
                | nil => exact absurd hd hne
                | cons a as => rfl)
              rfl []
            simpa using hfin
        | cons s2 rest2 =>
          cases s2 with
          | field n2 => simp [sepTemplate] at hsep
          | num n2 w2 => simp [sepTemplate] at hsep
          | lit s2 =>
            have hsep' : sepTemplate (Seg.lit s2 :: rest2) = true := hsep
            have hsimp := hsep'
            simp only [sepTemplate, Bool.and_eq_true, Bool.not_eq_true',
              List.isEmpty_eq_false] at hsimp
            have hs2ne : s2.toList ≠ [] := hsimp.1
            have hlen' : vs.length = fieldCount (Seg.lit s2 :: rest2) := by
              simpa [fieldCount] using hlen
            have hmem' : ∀ v' ∈ vs, v'.toList ≠ [] ∧
                ∀ c ∈ v'.toList, c ∉ litChars (Seg.lit s2 :: rest2) := by
              intro v' hv'
              exact hmem v' (List.mem_cons_of_mem v hv')
            have hr := ih vs hsep' hlen' hmem'
            have hfail : ∀ j, 1 ≤ j → j < v.toList.length →
                matchSegs (Seg.lit s2 :: rest2)
                  (v.toList.drop j ++ renderWith (Seg.lit s2 :: rest2) vs) =
                  none := by
              intro j hj1 hj2
              have hne : v.toList.drop j ≠ [] := by
                intro hd
                have hle := List.drop_eq_nil_iff.mp hd
                omega
              cases hd : v.toList.drop j with
              | nil => exact absurd hd hne
              | cons a as =>
                have ha : a ∈ v.toList := by
                  refine List.drop_subset j v.toList ?_
                  rw [hd]
                  exact List.mem_cons_self a as
                cases hs2eq : s2.toList with
                | nil => exact absurd hs2eq hs2ne
                | cons b bs =>
                  have hab : b ≠ a := by
                    intro he
                    refine hv0.2 a ha ?_
                    simp only [litChars, List.mem_append]
                    refine Or.inl ?_
                    rw [hs2eq, he]
                    exact List.mem_cons_self a bs
                  rw [matchSegs_cons, segMatcher_lit, hs2eq]
                  simp [litMatch, dropPrefixChars, hab]
            have hfin := wildMatch_found n (matchSegs (Seg.lit s2 :: rest2))
              (fieldCaps (Seg.lit s2 :: rest2) vs) v.toList hv0.1
              (renderWith (Seg.lit s2 :: rest2) vs) hfail hr []
            simpa using hfin
    | num n w =>
      cases rest with
      | nil => simp [sepTemplate] at hsep
      | cons s2 rest2 => simp [sepTemplate] at hsep

theorem interpretYearField_change_eq {y : String} {yp : Caps}
    (hc : matchSegs CHANGE_YEAR_FORMAT y.toList = some yp) :
    interpretYearField y =
      (do
        let sd ← mkUtcDatetime (capValNat yp "start_year") 1 1 0 0 0
        let ed ← mkUtcDatetime (capValNat yp "end_year") 12 31 23 59 59
        let dt ← mkUtcDatetime (capValNat yp "end_year") 1 1 0 0 0
        Except.ok (CollectionIDs.GLAD_GLCLU2020_CHANGE,
          { datetime := dt, start_datetime := some sd,
            end_datetime := some ed })) := by
  unfold interpretYearField
  rw [hc]

theorem interpretYearField_annual_eq {y : String} {yp : Caps}
    (hc : matchSegs CHANGE_YEAR_FORMAT y.toList = none)
    (ha : matchSegs YEAR_FORMAT y.toList = some yp) :
    interpretYearField y =
      (do
        let dt ← mkUtcDatetime (capValNat yp "year") 1 1 0 0 0
        Except.ok (CollectionIDs.GLAD_GLCLU2020,
          { datetime := dt, start_datetime := none,
            end_datetime := none })) := by
  unfold interpretYearField
  rw [hc, ha]

theorem interpret_change {y : String} {yp : Caps} {cid : CollectionIDs}
    {props : DatetimeProperties}
    (hc : matchSegs CHANGE_YEAR_FORMAT y.toList = some yp)
    (hi : interpretYearField y = Except.ok (cid, props)) :
    cid = CollectionIDs.GLAD_GLCLU2020_CHANGE ∧
    props.datetime = ⟨capValNat yp "end_year", 1, 1, 0, 0, 0⟩ ∧
    props.start_datetime = some ⟨capValNat yp "start_year", 1, 1, 0, 0, 0⟩ ∧
    props.end_datetime = some ⟨capValNat yp "end_year", 12, 31, 23, 59, 59⟩ := by
  rw [interpretYearField_change_eq hc] at hi
  cases hsd : mkUtcDatetime (capValNat yp "start_year") 1 1 0 0 0 with
  | error e => rw [hsd, except_bind_err] at hi; cases hi
  | ok sd =>
    rw [hsd, except_bind_ok] at hi
    cases hed : mkUtcDatetime (capValNat yp "end_year") 12 31 23 59 59 with
    | error e => rw [hed, except_bind_err] at hi; cases hi
    | ok ed =>
      rw [hed, except_bind_ok] at hi
      cases hdt : mkUtcDatetime (capValNat yp "end_year") 1 1 0 0 0 with
      | error e => rw [hdt, except_bind_err] at hi; cases hi
      | ok dt =>
        rw [hdt, except_bind_ok] at hi
        injection hi with hi
        injection hi with hi1 hi2
        subst hi1
        subst hi2
        refine ⟨rfl, ?_, ?_, ?_⟩
        · exact mkUtcDatetime_ok hdt
        · exact congrArg some (mkUtcDatetime_ok hsd)
        · exact congrArg some (mkUtcDatetime_ok hed)

theorem interpret_annual {y : String} {yp : Caps} {cid : CollectionIDs}
    {props : DatetimeProperties}
    (hc : matchSegs CHANGE_YEAR_FORMAT y.toList = none)
    (ha : matchSegs YEAR_FORMAT y.toList = some yp)
    (hi : interpretYearField y = Except.ok (cid, props)) :
    cid = CollectionIDs.GLAD_GLCLU2020 ∧
    props.datetime = ⟨capValNat yp "year", 1, 1, 0, 0, 0⟩ ∧
    props.start_datetime = none ∧ props.end_datetime = none := by
  rw [interpretYearField_annual_eq hc ha] at hi
  cases hdt : mkUtcDatetime (capValNat yp "year") 1 1 0 0 0 with
  | error e => rw [hdt, except_bind_err] at hi; cases hi
  | ok dt =>
    rw [hdt, except_bind_ok] at hi
    injection hi with hi
    injection hi with hi1 hi2
    subst hi1
    subst hi2
    exact ⟨rfl, mkUtcDatetime_ok hdt, rfl, rfl⟩

theorem validate_ok {fmt : Template}
    (hv : "version" ∈ namedFields fmt)
    (hy : "year" ∈ namedFields fmt) :
    validate_href_format fmt = Except.ok fmt := by
  simp [validate_href_format, requiredParams, List.filter, hv, hy]

theorem parse_href_ok {fmt : Template} {href : String} {caps : Caps}
    {y ver : String} {cid : CollectionIDs} {props : DatetimeProperties}
    (hm : matchSegs fmt href.toList = some caps)
    (hyv : lookupStr "year" caps = some y)
    (hi : interpretYearField y = Except.ok (cid, props))
    (hver : lookupStr "version" caps = some ver) :
    (annualDefinition fmt).parse_href href =
      Except.ok { id := String.intercalate "_" (caps.map Prod.snd),
                  version := ver, collection := cid, props := props } := by
  have hfmt : (annualDefinition fmt).href_format = fmt := rfl
  simp only [CollectionDefinition.parse_href, hfmt, hm, hyv, hi,
    except_bind_ok, hver]

theorem stac_create_item_eq
    {fmt : Template} {href : String} {caps : Caps} {y ver : String}
    {cid : CollectionIDs} {props : DatetimeProperties}
    {sniff : String → Except String MediaType} {mt : MediaType}
    (hv : "version" ∈ namedFields fmt)
    (hy : "year" ∈ namedFields fmt)
    (hm : matchSegs fmt href.toList = some caps)
    (hyv : lookupStr "year" caps = some y)
    (hi : interpretYearField y = Except.ok (cid, props))
    (hver : lookupStr "version" caps = some ver)
    (hs : sniff href = Except.ok mt) :
    stac.create_item sniff href fmt =
      Except.ok { id := String.intercalate "_" (caps.map Prod.snd),
                  collection := cid, datetime := props.datetime,
                  start_datetime := props.start_datetime,
                  end_datetime := props.end_datetime,
                  version := ver, asset_media_type := mt,
                  classifications_file := "data/annual_classes.csv" } := by
  have hph := parse_href_ok hm hyv hi hver
  simp only [stac.create_item, mkCollectionRegistry, validate_ok hv hy,
    except_bind_ok, stac.create_item_loop]
  rw [hph, except_bind_ok]
  simp only [CollectionDefinition.create_item]
  rw [hph, except_bind_ok, hs, except_bind_ok]
  rfl

/-! Claim theorems. -/

/-- C1 counterexample: on an href that does not match the template,
`parse_href` raises a ValueError naming the href and the template — it does
not return the no-match signal the claim describes. -/
theorem C1_counterexample :
    (annualDefinition testHrefFormat).parse_href "10N_050W.tif" =
      Except.error ("could not parse the provided href (10N_050W.tif) " ++
        "using the provided href_format: " ++
        "test/\x7bversion\x7d/\x7byear\x7d/\x7bloc\x7d.tif") := by
  decide

/-- C1 (amended): for every href that does not match the template,
`parse_href` raises (models as an error result) a ValueError naming the
href and the template, rather than returning a non-error no-match signal;
the multi-template trial loop of the callers therefore never survives a
non-matching href. -/
theorem C1_theorem (d : CollectionDefinition) (href : String)
    (h : matchSegs d.href_format href.toList = none) :
    d.parse_href href =
      Except.error ("could not parse the provided href (" ++ href ++
        ") using the provided href_format: " ++
        renderTemplate d.href_format) := by
  unfold CollectionDefinition.parse_href
  rw [h]

/-- C1 witness: the amended theorem applied to a concrete non-matching
href. -/
theorem C1_witness :
    matchSegs (annualDefinition testHrefFormat).href_format
      "10N_050W.tif".toList = none ∧
    (annualDefinition testHrefFormat).parse_href "10N_050W.tif" =
      Except.error ("could not parse the provided href (" ++ "10N_050W.tif" ++
        ") using the provided href_format: " ++
        renderTemplate (annualDefinition testHrefFormat).href_format) :=
  ⟨by decide,
   C1_theorem (annualDefinition testHrefFormat) "10N_050W.tif" (by decide)⟩

/-- C4 counterexample: supplying both an explicit media type and a sample
asset href is accepted — the build succeeds and uses the explicit type
(COG), ignoring the sniffing oracle (which would report GEOTIFF) — so the
inputs are not restricted to exactly one of the two. -/
theorem C4_counterexample :
    (annualDefinition testHrefFormat).build_collection sniffGEOTIFF
      (some MediaType.COG) (some "sample.tif") =
      Except.ok (mkCollection (annualDefinition testHrefFormat)
        MediaType.COG) := by
  decide

/-- C4 (amended): building collection metadata requires at least one of
the explicit media type and the sample asset href: with neither, the
operation fails with an error; with an explicit media type it is used
directly, whether or not a sample href is also supplied; with only a
sample href the media type is resolved by sniffing it. -/
theorem C4_theorem :
    (∀ (d : CollectionDefinition) (sniff : String → Except String MediaType),
      d.build_collection sniff none none =
        Except.error ("either provide a media_type or sample_asset_href " ++
          "in order to determine the media type")) ∧
    (∀ (d : CollectionDefinition) (sniff : String → Except String MediaType)
      (m : MediaType) (s : Option String),
      d.build_collection sniff (some m) s = Except.ok (mkCollection d m)) ∧
    (∀ (d : CollectionDefinition) (sniff : String → Except String MediaType)
      (h : String) (m : MediaType), sniff h = Except.ok m →
      d.build_collection sniff none (some h) =
        Except.ok (mkCollection d m)) := by
  refine ⟨fun d sniff => rfl, fun d sniff m s => ?_, fun d sniff h m hsn => ?_⟩
  · cases s with
    | none => rfl
    | some h => rfl
  · simp only [CollectionDefinition.build_collection, hsn, except_bind_ok]

/-- C4 witness: the amended theorem applied at concrete inputs — the
missing-input error, the explicit-type path and the sniffing path. -/
theorem C4_witness :
    (annualDefinition testHrefFormat).build_collection sniffCOG none none =
      Except.error ("either provide a media_type or sample_asset_href " ++
        "in order to determine the media type") ∧
    (annualDefinition testHrefFormat).build_collection sniffCOG
      (some MediaType.GEOTIFF) none =
      Except.ok (mkCollection (annualDefinition testHrefFormat)
        MediaType.GEOTIFF) ∧
    sniffCOG "sample.tif" = Except.ok MediaType.COG ∧
    (annualDefinition testHrefFormat).build_collection sniffCOG none
      (some "sample.tif") =
      Except.ok (mkCollection (annualDefinition testHrefFormat)
        MediaType.COG) :=
  ⟨C4_theorem.1 (annualDefinition testHrefFormat) sniffCOG,
   C4_theorem.2.1 (annualDefinition testHrefFormat) sniffCOG
     MediaType.GEOTIFF none,
   by decide,
   C4_theorem.2.2 (annualDefinition testHrefFormat) sniffCOG "sample.tif"
     MediaType.COG (by decide)⟩

/-- C5: template validation succeeds, returning the template unchanged,
exactly when both required placeholder names are present; otherwise it
fails with a message listing exactly the missing required names, sorted
(version before year). -/
theorem C5_theorem (t : Template) :
    (("version" ∈ namedFields t ∧ "year" ∈ namedFields t) →
      validate_href_format t = Except.ok t) ∧
    (("version" ∉ namedFields t ∧ "year" ∈ namedFields t) →
      validate_href_format t = Except.error ("Format string missing " ++
        "required parameters: version. " ++
        "Required parameters are: version, year")) ∧
    (("version" ∈ namedFields t ∧ "year" ∉ namedFields t) →
      validate_href_format t = Except.error ("Format string missing " ++
        "required parameters: year. " ++
        "Required parameters are: version, year")) ∧
    (("version" ∉ namedFields t ∧ "year" ∉ namedFields t) →
      validate_href_format t = Except.error ("Format string missing " ++
        "required parameters: version, year. " ++
        "Required parameters are: version, year")) := by
  refine ⟨fun h => validate_ok h.1 h.2, fun h => ?_, fun h => ?_, fun h => ?_⟩
  · have hmiss : requiredParams.filter
        (fun p => !(namedFields t).contains p) = ["version"] := by
      simp [requiredParams, List.filter, h.1, h.2]
    simp only [validate_href_format, hmiss]
    rfl
  · have hmiss : requiredParams.filter
        (fun p => !(namedFields t).contains p) = ["year"] := by
      simp [requiredParams, List.filter, h.1, h.2]
    simp only [validate_href_format, hmiss]
    rfl
  · have hmiss : requiredParams.filter
        (fun p => !(namedFields t).contains p) = ["version", "year"] := by
      simp [requiredParams, List.filter, h.1, h.2]
    simp only [validate_href_format, hmiss]
    rfl

/-- C5 witness: the theorem applied to four concrete templates — both
names present, version missing, year missing, both missing. -/
theorem C5_witness :
    validate_href_format testHrefFormat = Except.ok testHrefFormat ∧
    validate_href_format [.lit "test/", .field "ver", .lit "/", .field "year"]
      = Except.error ("Format string missing " ++
        "required parameters: version. " ++
        "Required parameters are: version, year") ∧
    validate_href_format [.lit "test/", .field "version", .lit "/",
      .field "yeer"] = Except.error ("Format string missing " ++
        "required parameters: year. " ++
        "Required parameters are: version, year") ∧
    validate_href_format [.lit "test.tif"] =
      Except.error ("Format string missing " ++
        "required parameters: version, year. " ++
        "Required parameters are: version, year") :=
  ⟨(C5_theorem testHrefFormat).1 (by decide),
   (C5_theorem [.lit "test/", .field "ver", .lit "/", .field "year"]).2.1
     (by decide),
   (C5_theorem [.lit "test/", .field "version", .lit "/",
     .field "yeer"]).2.2.1 (by decide),
   (C5_theorem [.lit "test.tif"]).2.2.2 (by decide)⟩

/-- C6 counterexample: for the template `\x7bversion\x7d/\x7byear\x7d`
and the assignment version = "a/b", year = "c", substitution yields
"a/b/c", which parses back as version = "a", year = "b/c" — the
substituted values are not recovered, so the unrestricted round-trip
claim fails. -/
theorem C6_counterexample :
    matchSegs slashTemplate (renderWith slashTemplate ["a/b", "c"]) ≠
      some (fieldCaps slashTemplate ["a/b", "c"]) ∧
    matchSegs slashTemplate (renderWith slashTemplate ["a/b", "c"]) =
      some [("version", "a"), ("year", "b/c")] := by
  constructor
  · decide
  · decide

/-- C6 witness: the amended round-trip theorem applied to the test
template with concrete delimiter-free values. -/
theorem C6_witness :
    sepTemplate testHrefFormat = true ∧
    ([("v2" : String), "2000", "40N_080W"].length =
      fieldCount testHrefFormat) ∧
    (∀ v ∈ [("v2" : String), "2000", "40N_080W"], v.toList ≠ [] ∧
      ∀ c ∈ v.toList, c ∉ litChars testHrefFormat) ∧
    matchSegs testHrefFormat
      (renderWith testHrefFormat ["v2", "2000", "40N_080W"]) =
      some (fieldCaps testHrefFormat ["v2", "2000", "40N_080W"]) :=
  ⟨by decide, by decide, by decide,
   C6_theorem testHrefFormat ["v2", "2000", "40N_080W"] (by decide)
     (by decide) (by decide)⟩

/-- C7: interpreting the year field value "2000" yields the annual
result — the single UTC instant 2000-01-01T00:00:00, with no start/end
range. -/
theorem C7_theorem :
    interpretYearField "2000" =
      Except.ok (CollectionIDs.GLAD_GLCLU2020,
        { datetime := ⟨2000, 1, 1, 0, 0, 0⟩,
          start_datetime := none, end_datetime := none }) := by
  decide

/-- C9: a year field value matching neither the annual sub-format nor the
change sub-format makes interpretation fail with the error that names the
offending value and lists the two accepted sub-formats (the body of
`yearFormatErrorMessage`). -/
theorem C9_theorem (y : String)
    (hch : matchSegs CHANGE_YEAR_FORMAT y.toList = none)
    (ha : matchSegs YEAR_FORMAT y.toList = none) :
    interpretYearField y = Except.error (yearFormatErrorMessage y) := by
  unfold interpretYearField
  rw [hch, ha]

/-- C2: a change href routed through the top-level create_item is built by
the annual definition (tried first, and its parse_href succeeds on change
hrefs because both definitions share one template), so the item carries
the classification table of the annual collection (annual_classes.csv),
not the change table — even though its collection field is the change
collection id. -/
theorem C2_theorem (fmt : Template) (href y ver : String) (caps yp : Caps)
    (cid : CollectionIDs) (props : DatetimeProperties)
    (sniff : String → Except String MediaType) (mt : MediaType)
    (hv : "version" ∈ namedFields fmt) (hy : "year" ∈ namedFields fmt)
    (hm : matchSegs fmt href.toList = some caps)
    (hyv : lookupStr "year" caps = some y)
    (hch : matchSegs CHANGE_YEAR_FORMAT y.toList = some yp)
    (hi : interpretYearField y = Except.ok (cid, props))
    (hver : lookupStr "version" caps = some ver)
    (hs : sniff href = Except.ok mt) :
    ∃ item : Item, stac.create_item sniff href fmt = Except.ok item ∧
      item.classifications_file = "data/annual_classes.csv" ∧
      item.classifications_file ≠ "data/change_classes.csv" ∧
      item.collection = CollectionIDs.GLAD_GLCLU2020_CHANGE := by
  have hcid := (interpret_change hch hi).1
  subst hcid
  exact ⟨_, stac_create_item_eq hv hy hm hyv hi hver hs, rfl,
    by show ("data/annual_classes.csv" : String) ≠ "data/change_classes.csv"
       decide,
    rfl⟩

/-- C2 witness: the theorem applied to a concrete change href under the
test template. -/
theorem C2_witness :
    matchSegs testHrefFormat testChangeHref.toList =
      some [("version", "v2"), ("year", "2000-2020change"),
        ("loc", "10N_050W")] ∧
    matchSegs CHANGE_YEAR_FORMAT "2000-2020change".toList =
      some [("start_year", "2000"), ("end_year", "2020")] ∧
    (∃ item : Item,
      stac.create_item sniffCOG testChangeHref testHrefFormat =
        Except.ok item ∧
      item.classifications_file = "data/annual_classes.csv" ∧
      item.classifications_file ≠ "data/change_classes.csv" ∧
      item.collection = CollectionIDs.GLAD_GLCLU2020_CHANGE) :=
  ⟨by decide, by decide,
   C2_theorem testHrefFormat testChangeHref "2000-2020change" "v2"
     [("version", "v2"), ("year", "2000-2020change"), ("loc", "10N_050W")]
     [("start_year", "2000"), ("end_year", "2020")]
     CollectionIDs.GLAD_GLCLU2020_CHANGE
     { datetime := ⟨2020, 1, 1, 0, 0, 0⟩,
       start_datetime := some ⟨2000, 1, 1, 0, 0, 0⟩,
       end_datetime := some ⟨2020, 12, 31, 23, 59, 59⟩ }
     sniffCOG MediaType.COG (by decide) (by decide) (by decide) (by decide)
     (by decide) (by decide) (by decide) (by decide)⟩

/-- C3: routing and building an item from an href whose year field matches
the change sub-format always yields an item whose collection field is the
change collection id, never the annual one; and an href whose year field
matches the annual sub-format yields an item of the annual collection id,
never the change one. -/
theorem C3_theorem :
    (∀ (fmt : Template) (href y ver : String) (caps yp : Caps)
      (cid : CollectionIDs) (props : DatetimeProperties)
      (sniff : String → Except String MediaType) (mt : MediaType),
      "version" ∈ namedFields fmt → "year" ∈ namedFields fmt →
      matchSegs fmt href.toList = some caps →
      lookupStr "year" caps = some y →
      matchSegs CHANGE_YEAR_FORMAT y.toList = some yp →
      interpretYearField y = Except.ok (cid, props) →
      lookupStr "version" caps = some ver →
      sniff href = Except.ok mt →
      ∃ item : Item, stac.create_item sniff href fmt = Except.ok item ∧
        item.collection = CollectionIDs.GLAD_GLCLU2020_CHANGE ∧
        item.collection ≠ CollectionIDs.GLAD_GLCLU2020) ∧
    (∀ (fmt : Template) (href y ver : String) (caps yp : Caps)
      (cid : CollectionIDs) (props : DatetimeProperties)
      (sniff : String → Except String MediaType) (mt : MediaType),
      "version" ∈ namedFields fmt → "year" ∈ namedFields fmt →
      matchSegs fmt href.toList = some caps →
      lookupStr "year" caps = some y →
      matchSegs CHANGE_YEAR_FORMAT y.toList = none →
      matchSegs YEAR_FORMAT y.toList = some yp →
      interpretYearField y = Except.ok (cid, props) →
      lookupStr "version" caps = some ver →
      sniff href = Except.ok mt →
      ∃ item : Item, stac.create_item sniff href fmt = Except.ok item ∧
        item.collection = CollectionIDs.GLAD_GLCLU2020 ∧
        item.collection ≠ CollectionIDs.GLAD_GLCLU2020_CHANGE) := by
  constructor
  · intro fmt href y ver caps yp cid props sniff mt hv hy hm hyv hch hi
      hver hs
    have hcid := (interpret_change hch hi).1
    subst hcid
    exact ⟨_, stac_create_item_eq hv hy hm hyv hi hver hs, rfl,
      by show CollectionIDs.GLAD_GLCLU2020_CHANGE ≠ CollectionIDs.GLAD_GLCLU2020
         decide⟩
  · intro fmt href y ver caps yp cid props sniff mt hv hy hm hyv hch ha hi
      hver hs
    have hcid := (interpret_annual hch ha hi).1
    subst hcid
    exact ⟨_, stac_create_item_eq hv hy hm hyv hi hver hs, rfl,
      by show CollectionIDs.GLAD_GLCLU2020 ≠ CollectionIDs.GLAD_GLCLU2020_CHANGE
         decide⟩

/-- C3 witness: the theorem applied to a concrete change href and a
concrete annual href under the test template. -/
theorem C3_witness :
    matchSegs CHANGE_YEAR_FORMAT "2000-2020change".toList =
      some [("start_year", "2000"), ("end_year", "2020")] ∧
    (∃ item : Item,
      stac.create_item sniffCOG testChangeHref testHrefFormat =
        Except.ok item ∧
      item.collection = CollectionIDs.GLAD_GLCLU2020_CHANGE ∧
      item.collection ≠ CollectionIDs.GLAD_GLCLU2020) ∧
    matchSegs YEAR_FORMAT "2000".toList = some [("year", "2000")] ∧
    (∃ item : Item,
      stac.create_item sniffCOG testAnnualHref testHrefFormat =
        Except.ok item ∧
      item.collection = CollectionIDs.GLAD_GLCLU2020 ∧
      item.collection ≠ CollectionIDs.GLAD_GLCLU2020_CHANGE) :=
  ⟨by decide,
   C3_theorem.1 testHrefFormat testChangeHref "2000-2020change" "v2"
     [("version", "v2"), ("year", "2000-2020change"), ("loc", "10N_050W")]
     [("start_year", "2000"), ("end_year", "2020")]
     CollectionIDs.GLAD_GLCLU2020_CHANGE
     { datetime := ⟨2020, 1, 1, 0, 0, 0⟩,
       start_datetime := some ⟨2000, 1, 1, 0, 0, 0⟩,
       end_datetime := some ⟨2020, 12, 31, 23, 59, 59⟩ }
     sniffCOG MediaType.COG (by decide) (by decide) (by decide) (by decide)
     (by decide) (by decide) (by decide) (by decide),
   by decide,
   C3_theorem.2 testHrefFormat testAnnualHref "2000" "v2"
     [("version", "v2"), ("year", "2000"), ("loc", "10N_050W")]
     [("year", "2000")]
     CollectionIDs.GLAD_GLCLU2020
     { datetime := ⟨2000, 1, 1, 0, 0, 0⟩,
       start_datetime := none, end_datetime := none }
     sniffCOG MediaType.COG (by decide) (by decide) (by decide) (by decide)
     (by decide) (by decide) (by decide) (by decide) (by decide)⟩

/-- C8: interpreting a year field value matching the change sub-format
yields start_datetime = January 1 of the start year at 00:00:00 UTC and
end_datetime = December 31 of the end year at 23:59:59 UTC; the witness
shows the concrete instance "2000-2020change". -/
theorem C8_theorem (y : String) (yp : Caps) (cid : CollectionIDs)
    (props : DatetimeProperties)
    (hch : matchSegs CHANGE_YEAR_FORMAT y.toList = some yp)
    (hi : interpretYearField y = Except.ok (cid, props)) :
    props.start_datetime = some ⟨capValNat yp "start_year", 1, 1, 0, 0, 0⟩ ∧
    props.end_datetime = some ⟨capValNat yp "end_year", 12, 31, 23, 59, 59⟩ :=
  ⟨(interpret_change hch hi).2.2.1, (interpret_change hch hi).2.2.2⟩

/-- C8 witness: the theorem applied to the year field value
"2000-2020change", whose interpretation carries
start = 2000-01-01T00:00:00Z and end = 2020-12-31T23:59:59Z. -/
theorem C8_witness :
    matchSegs CHANGE_YEAR_FORMAT "2000-2020change".toList =
      some [("start_year", "2000"), ("end_year", "2020")] ∧
    interpretYearField "2000-2020change" =
      Except.ok (CollectionIDs.GLAD_GLCLU2020_CHANGE,
        { datetime := ⟨2020, 1, 1, 0, 0, 0⟩,
          start_datetime := some ⟨2000, 1, 1, 0, 0, 0⟩,
          end_datetime := some ⟨2020, 12, 31, 23, 59, 59⟩ }) ∧
    (({ datetime := ⟨2020, 1, 1, 0, 0, 0⟩,
        start_datetime := some ⟨2000, 1, 1, 0, 0, 0⟩,
        end_datetime := some ⟨2020, 12, 31, 23, 59, 59⟩ } :
        DatetimeProperties).start_datetime =
      some ⟨capValNat [("start_year", "2000"), ("end_year", "2020")]
        "start_year", 1, 1, 0, 0, 0⟩ ∧
     ({ datetime := ⟨2020, 1, 1, 0, 0, 0⟩,
        start_datetime := some ⟨2000, 1, 1, 0, 0, 0⟩,
        end_datetime := some ⟨2020, 12, 31, 23, 59, 59⟩ } :
        DatetimeProperties).end_datetime =
      some ⟨capValNat [("start_year", "2000"), ("end_year", "2020")]
        "end_year", 12, 31, 23, 59, 59⟩) :=
  ⟨by decide, by decide,
   C8_theorem "2000-2020change"
     [("start_year", "2000"), ("end_year", "2020")]
     CollectionIDs.GLAD_GLCLU2020_CHANGE
     { datetime := ⟨2020, 1, 1, 0, 0, 0⟩,
       start_datetime := some ⟨2000, 1, 1, 0, 0, 0⟩,
       end_datetime := some ⟨2020, 12, 31, 23, 59, 59⟩ }
     (by decide) (by decide)⟩

/-- C10: for an href whose year field matches the change sub-format, the
single datetime property of the built item (distinct from the start/end
range) is January 1 of the end year at 00:00:00 UTC. -/
theorem C10_theorem (fmt : Template) (href y ver es : String)
    (caps yp : Caps) (cid : CollectionIDs) (props : DatetimeProperties)
    (sniff : String → Except String MediaType) (mt : MediaType)
    (hv : "version" ∈ namedFields fmt) (hy : "year" ∈ namedFields fmt)
    (hm : matchSegs fmt href.toList = some caps)
    (hyv : lookupStr "year" caps = some y)
    (hch : matchSegs CHANGE_YEAR_FORMAT y.toList = some yp)
    (hi : interpretYearField y = Except.ok (cid, props))
    (he : lookupStr "end_year" yp = some es)
    (hver : lookupStr "version" caps = some ver)
    (hs : sniff href = Except.ok mt) :
    ∃ item : Item, stac.create_item sniff href fmt = Except.ok item ∧
      item.datetime = ⟨digitsToNat es, 1, 1, 0, 0, 0⟩ := by
  refine ⟨_, stac_create_item_eq hv hy hm hyv hi hver hs, ?_⟩
  show props.datetime = _
  rw [(interpret_change hch hi).2.1]
  simp [capValNat, he]

/-- C10 witness: the theorem applied to a concrete change href — the item
datetime is 2020-01-01T00:00:00Z for the year field "2000-2020change". -/
theorem C10_witness :
    matchSegs CHANGE_YEAR_FORMAT "2000-2020change".toList =
      some [("start_year", "2000"), ("end_year", "2020")] ∧
    lookupStr "end_year" [("start_year", "2000"), ("end_year", "2020")] =
      some "2020" ∧
    digitsToNat "2020" = 2020 ∧
    (∃ item : Item,
      stac.create_item sniffCOG testChangeHref testHrefFormat =
        Except.ok item ∧
      item.datetime = ⟨digitsToNat "2020", 1, 1, 0, 0, 0⟩) :=
  ⟨by decide, by decide, by decide,
   C10_theorem testHrefFormat testChangeHref "2000-2020change" "v2" "2020"
     [("version", "v2"), ("year", "2000-2020change"), ("loc", "10N_050W")]
     [("start_year", "2000"), ("end_year", "2020")]
     CollectionIDs.GLAD_GLCLU2020_CHANGE
     { datetime := ⟨2020, 1, 1, 0, 0, 0⟩,
       start_datetime := some ⟨2000, 1, 1, 0, 0, 0⟩,
       end_datetime := some ⟨2020, 12, 31, 23, 59, 59⟩ }
     sniffCOG MediaType.COG (by decide) (by decide) (by decide) (by decide)
     (by decide) (by decide) (by decide) (by decide) (by decide)⟩

set_option maxRecDepth 8192 in
/-- C9 witness: the theorem applied to the two offending values of the
claim, with the error message spelled out in full. -/
theorem C9_witness :
    matchSegs CHANGE_YEAR_FORMAT "20000".toList = none ∧
    matchSegs YEAR_FORMAT "20000".toList = none ∧
    interpretYearField "20000" = Except.error ("The year parameter " ++
      "cannot be parsed into either the annual or change formats: 20000\n" ++
      "Make sure the year parameter matches either of these formats:\n" ++
      "\x7byear:4d\x7d, \x7bstart_year:4d\x7d-\x7bend_year:4d\x7dchange") ∧
    interpretYearField "2000-20200change" =
      Except.error ("The year parameter " ++
        "cannot be parsed into either the annual or change formats: " ++
        "2000-20200change\n" ++
        "Make sure the year parameter matches either of these formats:\n" ++
        "\x7byear:4d\x7d, \x7bstart_year:4d\x7d-\x7bend_year:4d\x7dchange") := by
  refine ⟨by decide, by decide, ?_, ?_⟩
  · rw [ C9_theorem "20000" (by decide) (by decide)]
    decide
  · rw [ C9_theorem "2000-20200change" (by decide) (by decide)]
    decide

end GladGlclu2020
